import Mathlib

/-!
A shallow embedding of the launch-argument resolution and process-spawn pipeline
of the RMCLL repository (src/src/launcher/mod.rs), together with theorems about
the properties the specification states for it.

The launcher module consumes three collaborator crates that are not part of the
embedded source file: `versions` (version metadata, native collections), `yggdrasil`
(authentication) and `parsing` (template substitution). Those collaborators are
modelled at their consumed interface, exactly as the specification describes them;
each such definition carries a doc comment saying so. Filesystem paths are modelled
as strings (the source immediately renders every path with to_str().unwrap_or("")),
and process creation is modelled by an explicit operating-system parameter mapping
a built command to a spawn outcome.
-/

namespace RMCLL

/-- Resolution-layer errors. The `versions::Error` type lives outside the embedded
file; it is modelled as an inductive covering the error kinds the launcher
propagates (version lookup, native resolution, template expansion, extraction,
spawn, generic io). The launcher never constructs these itself except by
propagation, so the particular constructors only serve to distinguish sources. -/
inductive VError where
  | versionNotFound : VError
  | nativeResolution : String → VError
  | templateExpansion : String → VError
  | extraction : String → VError
  | spawnFailure : String → VError
  | ioError : String → VError
  deriving DecidableEq

/-- Modelled from the spec: the yggdrasil `AuthInfo` collaborator exposes a user
display name (`user_profile().name()`), a uuid (`user_profile().uuid()`) and an
access token (`access_token()`); uuid-like values expose a `simple()` rendering. -/
structure AuthInfo where
  name : String
  uuid : String
  access_token : String
  deriving DecidableEq

/-- Modelled from the spec: `simple()` renders the dash-stripped (simple) form of
a uuid-like value. -/
def simple (s : String) : String :=
  (s.toList.filter (fun c => c != '-')).asString

/-- Embeds `JvmOption(String)`: a single opaque command-line token. -/
structure JvmOption where
  arg : String
  deriving DecidableEq

/-- Embeds `JvmOption::new`. -/
def JvmOption.new (arg : String) : JvmOption :=
  ⟨arg⟩

/-- Embeds `GameOption(String, Option<String>)`: a flag name plus an optional value token.
The two positional fields are named `name` and `value` here. -/
structure GameOption where
  name : String
  value : Option String
  deriving DecidableEq

/-- Embeds `GameOption::new_pair`. -/
def GameOption.new_pair (name arg : String) : GameOption :=
  ⟨name, some arg⟩

/-- Embeds `GameOption::new_single`. -/
def GameOption.new_single (name : String) : GameOption :=
  ⟨name, none⟩

/-- The `versions::NativeCollection` collaborator (outside the embedded file): the
launcher observes it only through `extract_to`, modelled as a function from the
target directory to the result (list of written file names, or an error). -/
structure NativeCollection where
  extract_to : String → Except VError (List String)

/-- The asset-index object returned by `Version::asset_index`; the launcher reads
only its `id`. -/
structure AssetIndex where
  id : String
  deriving DecidableEq

/-- Modelled from the spec: the `versions::MinecraftVersion` collaborator at its
consumed interface. Methods that take the manager or the libraries directory in
the source are modelled as functions of the data they may depend on (the manager
argument is absorbed into the function value, since the version object together
with its manager is fixed per resolution). `collect_game_arguments` and
`collect_jvm_arguments` append expanded tokens, in declared order, to the vector
passed by the caller; they are modelled as returning the appended list. -/
structure MinecraftVersion where
  main_class : Option String
  asset_index : Option AssetIndex
  version_type : String
  classpath : String → Except VError String
  to_native_collection : String → Except VError NativeCollection
  collect_game_arguments : (String → String) → Except VError (List GameOption)
  collect_jvm_arguments : (String → String) → Except VError (List JvmOption)

/-- Modelled from the spec: the `versions::VersionManager` collaborator. It owns
version-metadata lookup (`version_of(id) -> Version | NotFound`, modelled by the
association list `versions`) and path derivation for a version id
(`get_natives_path`, `get_primary_jar_path`; the source renders both with
to_str().unwrap_or(""), so they are modelled as string-valued). -/
structure VersionManager where
  versions_dir : String
  versions : List (String × MinecraftVersion)
  get_natives_path : String → String
  get_primary_jar_path : String → String

/-- Modelled from the spec: `version_of(id) -> Version | NotFound`. -/
def VersionManager.version_of (m : VersionManager) (id : String) : Except VError MinecraftVersion :=
  match m.versions.find? (fun p => p.1 == id) with
  | some p => Except.ok p.2
  | none => Except.error VError.versionNotFound

/-- Modelled from the spec: `VersionManager::new` scopes a manager to the given
`versions/` subdirectory. Loading of version metadata from that directory happens
in the versions crate, outside the embedded file, so a freshly constructed manager
is modelled with no loaded versions and empty derived paths. -/
def VersionManager.new (p : String) : VersionManager :=
  { versions_dir := p, versions := [], get_natives_path := fun _ => "",
    get_primary_jar_path := fun _ => "" }

/-- Models Rust Path::join / PathBuf::push: an absolute right side replaces the
path; otherwise a separator is inserted unless one is already present. -/
def pathJoin (base child : String) : String :=
  if child.startsWith "/" then child
  else if base.endsWith "/" || base.isEmpty then base ++ child
  else base ++ "/" ++ child

/-- Embeds `struct MinecraftLauncher` (the Launch Configuration). -/
structure MinecraftLauncher where
  version_id : String
  program_path : String
  game_root_dir : String
  assets_dir : String
  libraries_dir : String
  manager : VersionManager
  launcher_name_version : String × String
  auth_info : AuthInfo
  window_resolution : Nat × Nat

/-- Embeds `struct LaunchArguments` (the Launch Plan). -/
structure LaunchArguments where
  java_main_class : String
  java_program_path : String
  jvm_options : List JvmOption
  game_options : List GameOption
  game_native_path : String
  game_natives : NativeCollection

instance : Inhabited NativeCollection :=
  ⟨⟨fun _ => Except.ok []⟩⟩

instance : Inhabited LaunchArguments :=
  ⟨{ java_main_class := "", java_program_path := "", jvm_options := [],
     game_options := [], game_native_path := "", game_natives := default }⟩

/-- Embeds `fn create`. The candidate sequence produced by the `find_jre` probe is passed
in explicitly (the probe itself shells out to the operating system). The source
takes `find_jre().pop().expect("Java Runtime Environment not found")`: `Vec::pop`
removes and returns the LAST element, and `expect` panics on an empty vector; the
panic is modelled as `Except.error` carrying the panic message. -/
def create (jre_candidates : List String) (game_dir : String) (game_version_id : String)
    (game_auth_info : AuthInfo) : Except String MinecraftLauncher :=
  match jre_candidates.getLast? with
  | none => Except.error "Java Runtime Environment not found"
  | some popped =>
    Except.ok
      { version_id := game_version_id,
        program_path := popped,
        assets_dir := pathJoin game_dir "assets/",
        libraries_dir := pathJoin game_dir "libraries/",
        manager := VersionManager.new (pathJoin game_dir "versions/"),
        game_root_dir := game_dir,
        launcher_name_version := ("RMCLL", "0.1.0"),
        auth_info := game_auth_info,
        window_resolution := (854, 480) }

/-- Lookup in the Variable Map. The source uses a `HashMap`; since every inserted
key is distinct and the map is only ever read through `get`, it is modelled as an
association list in insertion order with first-match lookup. -/
def mapGet : List (String × String) → String → Option String
  | [], _ => none
  | (k, v) :: rest, s => if k = s then some v else mapGet rest s

/-- Embeds `MinecraftLauncher::generate_argument_map`: the Variable-Map Builder. Entries
appear in the insertion order of the source; every key is distinct. -/
def MinecraftLauncher.generate_argument_map (l : MinecraftLauncher)
    (version : MinecraftVersion) : List (String × String) :=
  let name := l.auth_info.name
  let uuid := simple l.auth_info.uuid
  let access_token := simple l.auth_info.access_token
  [("auth_access_token", access_token),
   ("user_properties", "\x7b\x7d"),
   ("user_property_map", "\x7b\x7d"),
   ("auth_session", "token:" ++ access_token ++ ":" ++ uuid),
   ("auth_player_name", name),
   ("auth_uuid", uuid),
   ("user_type", "legacy"),
   ("profile_name", name),
   ("version_name", l.version_id),
   ("game_directory", l.game_root_dir),
   ("assets_root", l.assets_dir),
   ("assets_index_name", (version.asset_index.map AssetIndex.id).getD ""),
   ("version_type", version.version_type),
   ("resolution_width", toString l.window_resolution.1),
   ("resolution_height", toString l.window_resolution.2),
   ("language", "en-us"),
   ("launcher_name", l.launcher_name_version.1),
   ("launcher_version", l.launcher_name_version.2),
   ("natives_directory", l.manager.get_natives_path l.version_id),
   ("primary_jar", l.manager.get_primary_jar_path l.version_id),
   ("classpath",
     match version.classpath l.libraries_dir with
     | Except.ok s => s
     | Except.error _ => ""),
   ("classpath_separator", ":")]

/-- The placeholder-lookup strategy the resolver builds over the Variable Map
(`parsing::ParameterStrategy::map` applied to the closure in the source): lookup
of a missing key yields the empty string. -/
def strategyOf (map : List (String × String)) : String → String :=
  fun s =>
    match mapGet map s with
    | some string => string
    | none => ""

/-- The fixed baseline the resolver seeds `jvm_options` with, in source order. -/
def baselineJvmOptions : List JvmOption :=
  [JvmOption.new "-Xmn128m",
   JvmOption.new "-Xmx2048m",
   JvmOption.new "-XX:+UseG1GC",
   JvmOption.new "-XX:-UseAdaptiveSizePolicy",
   JvmOption.new "-XX:-OmitStackTraceInFastThrow",
   JvmOption.new "-Dfml.ignoreInvalidMinecraftCertificates=true",
   JvmOption.new "-Dfml.ignorePatchDiscrepancies=true"]

/-- Embeds `MinecraftLauncher::to_launch_arguments`: the Argument Resolver. Mirrors the
source step by step: resolve the version (propagating the error), default an
absent main class to the empty string, resolve the native collection
(propagating), seed the baseline JVM options, build the Variable Map, read the
extraction directory from the map (the source unwraps this lookup; the model
defaults the impossible `none` branch to the empty string and the accompanying
theorem shows the lookup always succeeds), wrap the map as a strategy, collect
game then jvm arguments (each propagating), and package the Launch Plan. -/
def MinecraftLauncher.to_launch_arguments (l : MinecraftLauncher) :
    Except VError LaunchArguments :=
  let java_program_path := l.program_path
  match l.manager.version_of l.version_id with
  | Except.error e => Except.error e
  | Except.ok minecraft_version =>
    let java_main_class := minecraft_version.main_class.getD ""
    match minecraft_version.to_native_collection l.libraries_dir with
    | Except.error e => Except.error e
    | Except.ok game_natives =>
      let map := l.generate_argument_map minecraft_version
      let game_native_path := (mapGet map "natives_directory").getD ""
      let strategy := strategyOf map
      match minecraft_version.collect_game_arguments strategy with
      | Except.error e => Except.error e
      | Except.ok game_options =>
        match minecraft_version.collect_jvm_arguments strategy with
        | Except.error e => Except.error e
        | Except.ok declared_jvm_options =>
          Except.ok
            { game_natives := game_natives,
              game_native_path := game_native_path,
              game_options := game_options,
              jvm_options := baselineJvmOptions ++ declared_jvm_options,
              java_main_class := java_main_class,
              java_program_path := java_program_path }

/-- The handle to a spawned child process, opaque to this core. -/
structure Child where
  pid : Nat
  deriving DecidableEq

/-- Embeds `std::process::Command` as the launcher uses it: a program plus an argument
vector accumulated by `args`. -/
structure Command where
  program : String
  argv : List String
  deriving DecidableEq

/-- Embeds `Command::new`. -/
def Command.new (program : String) : Command :=
  ⟨program, []⟩

/-- Embeds `Command::args`: appends the given tokens to the argument vector. -/
def Command.args (c : Command) (xs : List String) : Command :=
  ⟨c.program, c.argv ++ xs⟩

/-- The operating-system side of `Command::spawn`: maps a fully built command to a
process handle or a spawn error. Passed explicitly to the spawning operations. -/
def SpawnOS : Type :=
  Command → Except VError Child

/-- Embeds `LaunchArguments::program`. -/
def LaunchArguments.program (la : LaunchArguments) : String :=
  la.java_program_path

/-- Embeds `LaunchArguments::args`: serializes the full ordered argument vector, first
every jvm option, then the main class, then every game option (name, plus value
when present), by pushing onto a result vector exactly as the source loops do. -/
def LaunchArguments.args (la : LaunchArguments) : List String :=
  let result : List String := []
  let result := la.jvm_options.foldl (fun acc option => acc ++ [option.arg]) result
  let result := result ++ [la.java_main_class]
  la.game_options.foldl
    (fun acc option =>
      match option with
      | { name := n, value := some a } => acc ++ [n, a]
      | { name := n, value := none } => acc ++ [n])
    result

/-- Embeds `LaunchArguments::spawn_new_process`: builds the command from `program()` and
`args()` and hands it to the operating system. -/
def LaunchArguments.spawn_new_process (la : LaunchArguments) (os : SpawnOS) :
    Except VError Child :=
  os ((Command.new la.program).args la.args)

/-- Embeds `LaunchArguments::extract_natives`. -/
def LaunchArguments.extract_natives (la : LaunchArguments) :
    Except VError (List String) :=
  la.game_natives.extract_to la.game_native_path

/-- Embeds `LaunchArguments::start`: extract natives, propagating failure, then spawn. -/
def LaunchArguments.start (la : LaunchArguments) (os : SpawnOS) :
    Except VError Child :=
  match la.extract_natives with
  | Except.error e => Except.error e
  | Except.ok _ => la.spawn_new_process os

/-- The tokens one game option contributes to the serialized argument vector. -/
def gameTokens (o : GameOption) : List String :=
  match o.value with
  | some a => [o.name, a]
  | none => [o.name]

/-! Concrete collaborator instances used as witnesses and counterexamples. -/

/-- The auth session of the spec scenario. -/
def exAuth : AuthInfo :=
  { name := "Steve", uuid := "069a79f4-44e9-4726-a5be-fca90e38aeca", access_token := "abc123" }

/-- A native collection whose extraction succeeds and writes one file. -/
def exNatives : NativeCollection :=
  ⟨fun _ => Except.ok ["liblwjgl.so"]⟩

/-- A resolvable version with one declared jvm option and two declared game options. -/
def exVersion : MinecraftVersion :=
  { main_class := some "net.minecraft.client.main.Main",
    asset_index := some ⟨"1.12"⟩,
    version_type := "release",
    classpath := fun dir => Except.ok (dir ++ "a.jar:" ++ dir ++ "b.jar"),
    to_native_collection := fun _ => Except.ok exNatives,
    collect_game_arguments := fun strategy =>
      Except.ok [GameOption.new_pair "--username" (strategy "auth_player_name"),
                 GameOption.new_single "--demo"],
    collect_jvm_arguments := fun strategy =>
      Except.ok [JvmOption.new ("-Djava.library.path=" ++ strategy "natives_directory")] }

/-- A manager holding exactly the version "1.12.2". -/
def exManager : VersionManager :=
  { versions_dir := "/home/user/.minecraft/versions/",
    versions := [("1.12.2", exVersion)],
    get_natives_path := fun id => "/home/user/.minecraft/versions/" ++ id ++ "/natives",
    get_primary_jar_path := fun id =>
      "/home/user/.minecraft/versions/" ++ id ++ "/" ++ id ++ ".jar" }

/-- The Launch Configuration of the spec scenario. -/
def exLauncher : MinecraftLauncher :=
  { version_id := "1.12.2",
    program_path := "/usr/bin/java",
    game_root_dir := "/home/user/.minecraft",
    assets_dir := "/home/user/.minecraft/assets/",
    libraries_dir := "/home/user/.minecraft/libraries/",
    manager := exManager,
    launcher_name_version := ("RMCLL", "0.1.0"),
    auth_info := exAuth,
    window_resolution := (854, 480) }

/-- The Launch Plan the scenario launcher resolves to. -/
def exPlan : LaunchArguments :=
  match exLauncher.to_launch_arguments with
  | Except.ok p => p
  | Except.error _ => default

/-- A version identical to `exVersion` except that it declares no jvm options. -/
def exVersionNoJvm : MinecraftVersion :=
  { exVersion with collect_jvm_arguments := fun _ => Except.ok [] }

/-- A launcher whose version declares no jvm options. -/
def exLauncherNoJvm : MinecraftLauncher :=
  { exLauncher with manager := { exManager with versions := [("1.12.2", exVersionNoJvm)] } }

/-- A launcher whose version id is absent from the manager. -/
def exLauncherMissing : MinecraftLauncher :=
  { exLauncher with version_id := "1.13" }

/-- A degenerate version: absent main class, absent asset index, failing
classpath computation. -/
def exVersionDeg : MinecraftVersion :=
  { exVersion with
    main_class := none,
    asset_index := none,
    classpath := fun _ => Except.error (VError.ioError "classpath failed") }

/-- A launcher resolving to the degenerate version. -/
def exLauncherDeg : MinecraftLauncher :=
  { exLauncher with manager := { exManager with versions := [("1.12.2", exVersionDeg)] } }

/-- The Launch Plan of the degenerate launcher. -/
def exPlanDeg : LaunchArguments :=
  match exLauncherDeg.to_launch_arguments with
  | Except.ok p => p
  | Except.error _ => default

/-- A Launch Plan whose native extraction fails. -/
def exPlanFail : LaunchArguments :=
  { exPlan with game_natives := ⟨fun _ => Except.error (VError.extraction "write failed")⟩ }

/-- An operating system on which every spawn succeeds. -/
def osAlwaysOk : SpawnOS :=
  fun _ => Except.ok ⟨1⟩

/-! Helper lemmas: how `to_launch_arguments` evaluates on each outcome of the
collaborator calls, and how `args` serializes the two option vectors. -/

theorem tla_version_err (l : MinecraftLauncher) (e : VError)
    (hv : l.manager.version_of l.version_id = Except.error e) :
    l.to_launch_arguments = Except.error e := by
  simp only [MinecraftLauncher.to_launch_arguments, hv]

theorem tla_natives_err (l : MinecraftLauncher) (v : MinecraftVersion) (e : VError)
    (hv : l.manager.version_of l.version_id = Except.ok v)
    (hn : v.to_native_collection l.libraries_dir = Except.error e) :
    l.to_launch_arguments = Except.error e := by
  simp only [MinecraftLauncher.to_launch_arguments, hv, hn]

theorem tla_game_err (l : MinecraftLauncher) (v : MinecraftVersion) (n : NativeCollection)
    (e : VError)
    (hv : l.manager.version_of l.version_id = Except.ok v)
    (hn : v.to_native_collection l.libraries_dir = Except.ok n)
    (hg : v.collect_game_arguments (strategyOf (l.generate_argument_map v)) = Except.error e) :
    l.to_launch_arguments = Except.error e := by
  simp only [MinecraftLauncher.to_launch_arguments, hv, hn, hg]

theorem tla_jvm_err (l : MinecraftLauncher) (v : MinecraftVersion) (n : NativeCollection)
    (g : List GameOption) (e : VError)
    (hv : l.manager.version_of l.version_id = Except.ok v)
    (hn : v.to_native_collection l.libraries_dir = Except.ok n)
    (hg : v.collect_game_arguments (strategyOf (l.generate_argument_map v)) = Except.ok g)
    (hj : v.collect_jvm_arguments (strategyOf (l.generate_argument_map v)) = Except.error e) :
    l.to_launch_arguments = Except.error e := by
  simp only [MinecraftLauncher.to_launch_arguments, hv, hn, hg, hj]

theorem tla_ok (l : MinecraftLauncher) (v : MinecraftVersion) (n : NativeCollection)
    (g : List GameOption) (j : List JvmOption)
    (hv : l.manager.version_of l.version_id = Except.ok v)
    (hn : v.to_native_collection l.libraries_dir = Except.ok n)
    (hg : v.collect_game_arguments (strategyOf (l.generate_argument_map v)) = Except.ok g)
    (hj : v.collect_jvm_arguments (strategyOf (l.generate_argument_map v)) = Except.ok j) :
    l.to_launch_arguments = Except.ok
      { java_main_class := v.main_class.getD "",
        java_program_path := l.program_path,
        jvm_options := baselineJvmOptions ++ j,
        game_options := g,
        game_native_path := (mapGet (l.generate_argument_map v) "natives_directory").getD "",
        game_natives := n } := by
  simp only [MinecraftLauncher.to_launch_arguments, hv, hn, hg, hj]

theorem tla_ok_inv (l : MinecraftLauncher) (plan : LaunchArguments)
    (hok : l.to_launch_arguments = Except.ok plan) :
    ∃ v n g j,
      l.manager.version_of l.version_id = Except.ok v
        ∧ v.to_native_collection l.libraries_dir = Except.ok n
        ∧ v.collect_game_arguments (strategyOf (l.generate_argument_map v)) = Except.ok g
        ∧ v.collect_jvm_arguments (strategyOf (l.generate_argument_map v)) = Except.ok j
        ∧ plan = { java_main_class := v.main_class.getD "",
                   java_program_path := l.program_path,
                   jvm_options := baselineJvmOptions ++ j,
                   game_options := g,
                   game_native_path :=
                     (mapGet (l.generate_argument_map v) "natives_directory").getD "",
                   game_natives := n } := by
  cases hv : l.manager.version_of l.version_id with
  | error e =>
    rw [tla_version_err l e hv] at hok
    exact Except.noConfusion hok
  | ok v =>
    cases hn : v.to_native_collection l.libraries_dir with
    | error e =>
      rw [tla_natives_err l v e hv hn] at hok
      exact Except.noConfusion hok
    | ok n =>
      cases hg : v.collect_game_arguments (strategyOf (l.generate_argument_map v)) with
      | error e =>
        rw [tla_game_err l v n e hv hn hg] at hok
        exact Except.noConfusion hok
      | ok g =>
        cases hj : v.collect_jvm_arguments (strategyOf (l.generate_argument_map v)) with
        | error e =>
          rw [tla_jvm_err l v n g e hv hn hg hj] at hok
          exact Except.noConfusion hok
        | ok j =>
          rw [tla_ok l v n g j hv hn hg hj] at hok
          injection hok with h1
          subst h1
          exact ⟨v, n, g, j, rfl, hn, hg, hj, rfl⟩

theorem game_foldl_eq :
    ∀ (l : List GameOption) (r : List String),
      List.foldl
        (fun acc option =>
          match option with
          | { name := n, value := some a } => acc ++ [n, a]
          | { name := n, value := none } => acc ++ [n]) r l
      = r ++ (l.map gameTokens).flatten := by
  intro l
  induction l with
  | nil => intro r; simp
  | cons x xs ih =>
    intro r
    cases x with
    | mk n v =>
      cases v with
      | none => simp [List.foldl, ih, gameTokens, List.append_assoc]
      | some a => simp [List.foldl, ih, gameTokens, List.append_assoc]

theorem jvm_foldl_eq :
    ∀ (l : List JvmOption) (r : List String),
      List.foldl (fun acc option => acc ++ [option.arg]) r l
      = r ++ l.map JvmOption.arg := by
  intro l
  induction l with
  | nil => intro r; simp
  | cons x xs ih => intro r; simp [List.foldl, ih, List.append_assoc]

theorem args_eq (la : LaunchArguments) :
    la.args = la.jvm_options.map JvmOption.arg ++ [la.java_main_class]
      ++ (la.game_options.map gameTokens).flatten := by
  simp only [LaunchArguments.args]
  rw [jvm_foldl_eq, game_foldl_eq]
  simp [List.append_assoc]

/-- Claim C1, as stated, is false: `create` takes the candidate list returned by
the runtime probe and selects the LAST candidate, not the first (`Vec::pop`
removes from the back). At the concrete two-candidate probe result below the
selected runtime executable is the second candidate. -/
theorem create_first_candidate_cex :
    (create ["/usr/bin/java", "/opt/jdk/bin/java"] "/home/user/.minecraft" "1.12.2"
        exAuth).toOption.map MinecraftLauncher.program_path = some "/opt/jdk/bin/java"
      ∧ some "/opt/jdk/bin/java" ≠ some "/usr/bin/java" :=
  ⟨rfl, by decide⟩

/-- Claim C1 (amended): for every sequence of candidate runtime paths returned by
the runtime probe, `create` selects the last candidate of that sequence as the
runtime executable path; and for the empty sequence, construction fails fatally
and immediately with the runtime-not-found panic, before any other pipeline step
executes. -/
theorem create_selects_last_candidate (c : List String) (d i : String) (a : AuthInfo) :
    (create c d i a).toOption.map MinecraftLauncher.program_path = c.getLast?
      ∧ (c = [] → create c d i a = Except.error "Java Runtime Environment not found") := by
  constructor
  · cases h : c.getLast? <;> simp [create, h, Except.toOption]
  · intro hc
    subst hc
    rfl

/-- Witness for the amended claim C1 at concrete inputs: a two-candidate probe
result selects the last candidate, and the empty probe result fails with the
runtime-not-found message. -/
theorem create_selects_last_candidate_witness :
    (create ["/usr/bin/javaA", "/usr/bin/javaB"] "/home/user/.minecraft" "1.12.2"
        exAuth).toOption.map MinecraftLauncher.program_path = some "/usr/bin/javaB"
      ∧ create [] "/home/user/.minecraft" "1.12.2" exAuth
        = Except.error "Java Runtime Environment not found" :=
  ⟨(create_selects_last_candidate ["/usr/bin/javaA", "/usr/bin/javaB"]
      "/home/user/.minecraft" "1.12.2" exAuth).1.trans rfl,
   (create_selects_last_candidate [] "/home/user/.minecraft" "1.12.2" exAuth).2 rfl⟩

/-- Claim C2: `args()` is exactly each jvm option as one token in stored order,
then the main class as one token, then each game option contributing its name
token plus its value token when a value is present (exactly 2 tokens) and only
its name token when absent (exactly 1 token); and `spawn_new_process` passes
exactly this sequence, with the runtime path as the executable, to process
creation. -/
theorem args_serialization (la : LaunchArguments) (os : SpawnOS) (g : GameOption) :
    la.args = la.jvm_options.map JvmOption.arg ++ [la.java_main_class]
        ++ (la.game_options.map gameTokens).flatten
      ∧ (gameTokens g).length = (if g.value.isSome then 2 else 1)
      ∧ gameTokens g = g.name :: (g.value.map (fun a => [a])).getD []
      ∧ la.spawn_new_process os = os { program := la.program, argv := la.args } := by
    refine ⟨args_eq la, ?_, ?_, rfl⟩
    · cases g with
      | mk n v => cases v <;> rfl
    · cases g with
      | mk n v => cases v <;> rfl

/-- Claim C3, as stated, is false in one respect: when the resolved version
declares no JVM options at all, the baseline IS the whole JVM-option segment, so
it is a prefix but not a STRICT prefix. Concretely, a launcher whose version
declares no jvm options resolves to a plan whose jvm options equal the baseline
exactly. -/
theorem jvm_baseline_strict_cex :
    exLauncherNoJvm.to_launch_arguments.toOption.map LaunchArguments.jvm_options
        = some baselineJvmOptions
      ∧ ¬ (∃ rest, rest ≠ [] ∧ baselineJvmOptions = baselineJvmOptions ++ rest) := by
  constructor
  · rfl
  · rintro ⟨rest, hne, heq⟩
    apply hne
    have h2 : baselineJvmOptions ++ ([] : List JvmOption) = baselineJvmOptions ++ rest :=
      (List.append_nil _).trans heq
    exact (List.append_cancel_left h2).symm

/-- Claim C3 (amended): for every successful resolution, the JVM-option sequence
of the Launch Plan is the fixed 7-element baseline, in exactly the source order,
followed by every version-declared JVM option; the baseline is therefore a
prefix of the JVM-option segment, strict whenever the version declares at least
one JVM option. -/
theorem jvm_baseline_first (l : MinecraftLauncher) (plan : LaunchArguments)
    (v : MinecraftVersion) (declared : List JvmOption)
    (hok : l.to_launch_arguments = Except.ok plan)
    (hv : l.manager.version_of l.version_id = Except.ok v)
    (hj : v.collect_jvm_arguments (strategyOf (l.generate_argument_map v))
      = Except.ok declared) :
    plan.jvm_options = baselineJvmOptions ++ declared
      ∧ baselineJvmOptions
        = [JvmOption.new "-Xmn128m",
           JvmOption.new "-Xmx2048m",
           JvmOption.new "-XX:+UseG1GC",
           JvmOption.new "-XX:-UseAdaptiveSizePolicy",
           JvmOption.new "-XX:-OmitStackTraceInFastThrow",
           JvmOption.new "-Dfml.ignoreInvalidMinecraftCertificates=true",
           JvmOption.new "-Dfml.ignorePatchDiscrepancies=true"]
      ∧ (declared ≠ [] → plan.jvm_options ≠ baselineJvmOptions) := by
  obtain ⟨v0, n, g, j, hv0, hn0, hg0, hj0, hplan⟩ := tla_ok_inv l plan hok
  have hvv : v = v0 := Except.ok.inj (hv.symm.trans hv0)
  subst hvv
  have hjj : declared = j := Except.ok.inj (hj.symm.trans hj0)
  subst hjj
  subst hplan
  refine ⟨rfl, rfl, ?_⟩
  intro hne heq
  apply hne
  have h2 : baselineJvmOptions ++ ([] : List JvmOption) = baselineJvmOptions ++ declared :=
    (List.append_nil _).trans heq.symm
  exact (List.append_cancel_left h2).symm

/-- Witness for the amended claim C3: the scenario launcher resolves with one
declared jvm option appended after the baseline, and its jvm segment therefore
differs from the bare baseline. -/
theorem jvm_baseline_first_witness :
    exPlan.jvm_options = baselineJvmOptions
        ++ [JvmOption.new "-Djava.library.path=/home/user/.minecraft/versions/1.12.2/natives"]
      ∧ exPlan.jvm_options ≠ baselineJvmOptions := by
  have h := jvm_baseline_first exLauncher exPlan exVersion
    [JvmOption.new "-Djava.library.path=/home/user/.minecraft/versions/1.12.2/natives"]
    rfl rfl rfl
  exact ⟨h.1, h.2.2 (List.cons_ne_nil _ _)⟩

/-- Claim C4: the Variable Map built by `generate_argument_map` contains exactly
the 22 enumerated keys, in the source insertion order, for every launcher and
every version (so no key is absent even when optional data is missing), and the
five fixed-value keys carry their fixed values. -/
theorem argument_map_keys (l : MinecraftLauncher) (v : MinecraftVersion) :
    (l.generate_argument_map v).map Prod.fst
        = ["auth_access_token", "user_properties", "user_property_map", "auth_session",
           "auth_player_name", "auth_uuid", "user_type", "profile_name", "version_name",
           "game_directory", "assets_root", "assets_index_name", "version_type",
           "resolution_width", "resolution_height", "language", "launcher_name",
           "launcher_version", "natives_directory", "primary_jar", "classpath",
           "classpath_separator"]
      ∧ mapGet (l.generate_argument_map v) "user_properties" = some "\x7b\x7d"
      ∧ mapGet (l.generate_argument_map v) "user_property_map" = some "\x7b\x7d"
      ∧ mapGet (l.generate_argument_map v) "user_type" = some "legacy"
      ∧ mapGet (l.generate_argument_map v) "language" = some "en-us"
      ∧ mapGet (l.generate_argument_map v) "classpath_separator" = some ":" :=
  ⟨rfl, rfl, rfl, rfl, rfl, rfl⟩

/-- Claim C5: for every auth session the Variable Map auth_session value is
"token:" followed by the simple access token, a colon, and the simple
(dash-stripped) uuid; and the concrete spec scenario (Steve, dashed uuid,
token abc123, game directory /home/user/.minecraft) yields the stated
auth_player_name, auth_session, game_directory and classpath_separator. -/
theorem auth_session_format (l : MinecraftLauncher) (v : MinecraftVersion) :
    mapGet (l.generate_argument_map v) "auth_session"
        = some ("token:" ++ simple l.auth_info.access_token ++ ":" ++ simple l.auth_info.uuid)
      ∧ mapGet (exLauncher.generate_argument_map exVersion) "auth_player_name" = some "Steve"
      ∧ mapGet (exLauncher.generate_argument_map exVersion) "auth_session"
        = some "token:abc123:069a79f444e94726a5befca90e38aeca"
      ∧ mapGet (exLauncher.generate_argument_map exVersion) "game_directory"
        = some "/home/user/.minecraft"
      ∧ mapGet (exLauncher.generate_argument_map exVersion) "classpath_separator" = some ":" :=
  ⟨rfl, rfl, rfl, rfl, rfl⟩

/-- Claim C6: `to_launch_arguments` returns an error exactly when the version
lookup fails, or the native-collection resolution fails, or the game- or
jvm-argument collection fails, with the error value of the collaborator surfaced
unchanged; in every other case it returns a Launch Plan. -/
theorem to_launch_arguments_error_cases (l : MinecraftLauncher) (e : VError) :
    (l.to_launch_arguments = Except.error e ↔
      l.manager.version_of l.version_id = Except.error e
        ∨ ∃ v, l.manager.version_of l.version_id = Except.ok v
          ∧ (v.to_native_collection l.libraries_dir = Except.error e
            ∨ ∃ n, v.to_native_collection l.libraries_dir = Except.ok n
              ∧ (v.collect_game_arguments (strategyOf (l.generate_argument_map v))
                    = Except.error e
                ∨ ∃ g, v.collect_game_arguments (strategyOf (l.generate_argument_map v))
                      = Except.ok g
                    ∧ v.collect_jvm_arguments (strategyOf (l.generate_argument_map v))
                      = Except.error e)))
      ∧ ((∀ e0, l.to_launch_arguments ≠ Except.error e0) →
          ∃ p, l.to_launch_arguments = Except.ok p) := by
  constructor
  · constructor
    · intro h
      cases hv : l.manager.version_of l.version_id with
      | error e1 =>
        rw [tla_version_err l e1 hv] at h
        injection h with h1
        subst h1
        exact Or.inl rfl
      | ok v =>
        cases hn : v.to_native_collection l.libraries_dir with
        | error e1 =>
          rw [tla_natives_err l v e1 hv hn] at h
          injection h with h1
          subst h1
          exact Or.inr ⟨v, rfl, Or.inl hn⟩
        | ok n =>
          cases hg : v.collect_game_arguments (strategyOf (l.generate_argument_map v)) with
          | error e1 =>
            rw [tla_game_err l v n e1 hv hn hg] at h
            injection h with h1
            subst h1
            exact Or.inr ⟨v, rfl, Or.inr ⟨n, hn, Or.inl hg⟩⟩
          | ok g =>
            cases hj : v.collect_jvm_arguments (strategyOf (l.generate_argument_map v)) with
            | error e1 =>
              rw [tla_jvm_err l v n g e1 hv hn hg hj] at h
              injection h with h1
              subst h1
              exact Or.inr ⟨v, rfl, Or.inr ⟨n, hn, Or.inr ⟨g, hg, hj⟩⟩⟩
            | ok j =>
              rw [tla_ok l v n g j hv hn hg hj] at h
              exact Except.noConfusion h
    · rintro (hv | ⟨v, hv, hn | ⟨n, hn, hg | ⟨g, hg, hj⟩⟩⟩)
      · exact tla_version_err l e hv
      · exact tla_natives_err l v e hv hn
      · exact tla_game_err l v n e hv hn hg
      · exact tla_jvm_err l v n g e hv hn hg hj
  · intro hne
    cases hto : l.to_launch_arguments with
    | error e0 => exact absurd hto (hne e0)
    | ok p => exact ⟨p, rfl⟩

/-- Witness for claim C6 at concrete inputs: a launcher whose version id is not
in the manager fails with version-not-found, and the scenario launcher resolves
to a Launch Plan. -/
theorem to_launch_arguments_error_cases_witness :
    exLauncherMissing.to_launch_arguments = Except.error VError.versionNotFound
      ∧ ∃ p, exLauncher.to_launch_arguments = Except.ok p := by
  constructor
  · exact ((to_launch_arguments_error_cases exLauncherMissing
      VError.versionNotFound).1).mpr (Or.inl rfl)
  · refine (to_launch_arguments_error_cases exLauncher VError.versionNotFound).2 ?_
    intro e0 h
    rw [show exLauncher.to_launch_arguments = Except.ok exPlan from rfl] at h
    exact Except.noConfusion h

/-- Claim C7: missing or failed optional version data never makes resolution
fail: an absent main class yields an empty-string entry class in the resolved
plan, an absent asset index yields an empty assets_index_name map entry, a
failed classpath computation yields an empty classpath map entry (the error is
swallowed), and the placeholder-lookup strategy returns the empty string for any
key not in the Variable Map. -/
theorem optional_data_defaults (l : MinecraftLauncher) (v : MinecraftVersion) (e : VError)
    (plan : LaunchArguments) (k : String) :
    (l.manager.version_of l.version_id = Except.ok v →
        l.to_launch_arguments = Except.ok plan →
        v.main_class = none → plan.java_main_class = "")
      ∧ (v.asset_index = none →
          mapGet (l.generate_argument_map v) "assets_index_name" = some "")
      ∧ (v.classpath l.libraries_dir = Except.error e →
          mapGet (l.generate_argument_map v) "classpath" = some "")
      ∧ (mapGet (l.generate_argument_map v) k = none →
          strategyOf (l.generate_argument_map v) k = "") := by
  refine ⟨?_, ?_, ?_, ?_⟩
  · intro hv hok hmc
    obtain ⟨v0, n, g, j, hv0, hn0, hg0, hj0, hplan⟩ := tla_ok_inv l plan hok
    have hvv : v = v0 := Except.ok.inj (hv.symm.trans hv0)
    subst hvv
    subst hplan
    simp [hmc]
  · intro hai
    have h0 : mapGet (l.generate_argument_map v) "assets_index_name"
        = some ((v.asset_index.map AssetIndex.id).getD "") := rfl
    rw [h0, hai]
    rfl
  · intro hcp
    have h0 : mapGet (l.generate_argument_map v) "classpath"
        = some (match v.classpath l.libraries_dir with
                | Except.ok s => s
                | Except.error _ => "") := rfl
    rw [h0, hcp]
  · intro hk
    simp only [strategyOf, hk]

/-- Witness for claim C7 at concrete inputs: the degenerate version (no main
class, no asset index, failing classpath) still resolves, with empty-string
entry class and empty-string map entries, and a key absent from the map maps to
the empty string under the strategy. -/
theorem optional_data_defaults_witness :
    exPlanDeg.java_main_class = ""
      ∧ mapGet (exLauncherDeg.generate_argument_map exVersionDeg) "assets_index_name"
        = some ""
      ∧ mapGet (exLauncherDeg.generate_argument_map exVersionDeg) "classpath" = some ""
      ∧ strategyOf (exLauncherDeg.generate_argument_map exVersionDeg) "not_a_map_key" = "" := by
  have h := optional_data_defaults exLauncherDeg exVersionDeg
    (VError.ioError "classpath failed") exPlanDeg "not_a_map_key"
  exact ⟨h.1 rfl rfl rfl, h.2.1 rfl, h.2.2.1 rfl, h.2.2.2 rfl⟩

/-- Claim C8: `start` runs `extract_natives` first; if extraction fails, `start`
returns that extraction error, for EVERY operating-system behavior (so no
process start can have been attempted); only if extraction succeeds does `start`
invoke `spawn_new_process`. -/
theorem start_extract_before_spawn (la : LaunchArguments) (os : SpawnOS) (e : VError)
    (ns : List String) :
    (la.extract_natives = Except.error e → la.start os = Except.error e)
      ∧ (la.extract_natives = Except.ok ns → la.start os = la.spawn_new_process os) := by
  constructor
  · intro h
    simp only [LaunchArguments.start, h]
  · intro h
    simp only [LaunchArguments.start, h]

/-- Witness for claim C8 at concrete inputs: a plan whose extraction fails
reports the extraction error even on an operating system on which every spawn
succeeds, and the scenario plan (whose extraction succeeds) proceeds to spawn. -/
theorem start_extract_before_spawn_witness :
    exPlanFail.start osAlwaysOk = Except.error (VError.extraction "write failed")
      ∧ exPlan.start osAlwaysOk = exPlan.spawn_new_process osAlwaysOk :=
  ⟨(start_extract_before_spawn exPlanFail osAlwaysOk (VError.extraction "write failed")
      []).1 rfl,
   (start_extract_before_spawn exPlan osAlwaysOk (VError.extraction "write failed")
      ["liblwjgl.so"]).2 rfl⟩

/-- Claim C9: resolution is deterministic: any two Launch Plans obtained from
`to_launch_arguments` on the same launcher state produce identical `args()`
output. -/
theorem resolution_deterministic (l : MinecraftLauncher) (p q : LaunchArguments)
    (hp : l.to_launch_arguments = Except.ok p) (hq : l.to_launch_arguments = Except.ok q) :
    p.args = q.args := by
  have h : Except.ok (ε := VError) p = Except.ok q := hp.symm.trans hq
  injection h with h1
  rw [h1]

/-- Witness for claim C9 at the concrete scenario launcher. -/
theorem resolution_deterministic_witness : exPlan.args = exPlan.args :=
  resolution_deterministic exLauncher exPlan exPlan rfl rfl

/-- Claim C10: the Variable Map built for any launcher and version always binds
"natives_directory" (to the natives path of the manager for the version id), so the
unwrap on that lookup in `to_launch_arguments` cannot panic; and every
successful resolution sets the extraction directory of the plan to exactly that
value. -/
theorem natives_directory_always_present (l : MinecraftLauncher) (v : MinecraftVersion)
    (plan : LaunchArguments) :
    mapGet (l.generate_argument_map v) "natives_directory"
        = some (l.manager.get_natives_path l.version_id)
      ∧ (l.to_launch_arguments = Except.ok plan →
          plan.game_native_path = l.manager.get_natives_path l.version_id) := by
  constructor
  · rfl
  · intro hok
    obtain ⟨v0, n, g, j, hv0, hn0, hg0, hj0, hplan⟩ := tla_ok_inv l plan hok
    subst hplan
    exact rfl

/-- Witness for claim C10 at the concrete scenario launcher: the map entry is
present and the resolved plan extracts to the natives path of the manager. -/
theorem natives_directory_always_present_witness :
    mapGet (exLauncher.generate_argument_map exVersion) "natives_directory"
        = some "/home/user/.minecraft/versions/1.12.2/natives"
      ∧ exPlan.game_native_path = "/home/user/.minecraft/versions/1.12.2/natives" := by
  have h := natives_directory_always_present exLauncher exVersion exPlan
  exact ⟨h.1.trans rfl, (h.2 rfl).trans rfl⟩

end RMCLL
